import Mathlib

/-!
Verification development for the debazaar marketplace escrow
transaction-orchestration layer.

The definitions below are a shallow embedding of the Python source under
`web_app/backend/marketplace/`:

* `blockchain/config.py`      — network / contract / token registry
* `blockchain/contract_service.py` — escrow contract resolution, gas estimation
* `blockchain/transaction_builder.py` — unsigned transaction construction
* `views.py`                  — the state-machine view handlers

Conventions of the embedding:

* Python dict lookups (`d.get(k)` / `d.get(k, default)`) become `Option`
  values with `Option.getD`; a dict entry whose stored value is Python
  `None` is embedded as `none`, which matches the observable behaviour of
  `.get`.
* Exceptions that a handler catches become `Except` / `Option` results;
  an uncaught exception surfaces as an HTTP 500 result in the handler
  model.
* RPC reads (gas estimation, entropy-fee read, transaction receipts) are
  inputs of the embedded functions: `Option Nat` for a gas estimate
  (`none` = the call raised), and a `Chain` map from transaction hash to
  receipt for `get_transaction_receipt` (`none` = the node raised).
* Python `float` arithmetic on monetary amounts is embedded over `ℚ`
  with `int(·)` as truncation toward zero.  For the quantities the
  theorems below evaluate (integer gas estimates below 2^50 multiplied
  by 1.2 or 1.5, and decimal prices scaled by 10^6) the double-precision
  evaluation in the source and the exact rational evaluation truncate to
  the same integer, so the embedding is exact there.
* Wallet addresses arrive in the handlers already validated and
  lowercased by the DRF serializers (`validate_*` lowercases them), and
  `User.username` stores the lowercased wallet address; the handlers
  therefore compare them as plain strings, exactly as the views do.
-/

/-! ## config.py — network registry -/

/-- A row of `NETWORKS` in `blockchain/config.py`. -/
structure NetworkConfig where
  chain_id : Nat
  name : String
  rpc_url : String
  block_explorer : String
deriving DecidableEq, Repr

/-- `NETWORKS['arbitrum_sepolia']` (config.py lines 13-18). -/
def arbitrumSepoliaConfig : NetworkConfig :=
  { chain_id := 421614
    name := "Arbitrum Sepolia"
    rpc_url := "https://sepolia-rollup.arbitrum.io/rpc"
    block_explorer := "https://sepolia.arbiscan.io" }

/-- `NETWORKS['arbitrum_one']` (config.py lines 19-24). -/
def arbitrumOneConfig : NetworkConfig :=
  { chain_id := 42161
    name := "Arbitrum One"
    rpc_url := "https://arb1.arbitrum.io/rpc"
    block_explorer := "https://arbiscan.io" }

/-- The `NETWORKS` dict (config.py lines 12-25). -/
def NETWORKS (network_name : String) : Option NetworkConfig :=
  if network_name = "arbitrum_sepolia" then some arbitrumSepoliaConfig
  else if network_name = "arbitrum_one" then some arbitrumOneConfig
  else none

/-- `DEFAULT_NETWORK` (config.py line 28): `os.environ.get('BLOCKCHAIN_NETWORK',
'arbitrum_sepolia')`; embedded at its in-code default value. -/
def DEFAULT_NETWORK : String := "arbitrum_sepolia"

/-- `get_network_config` (config.py lines 259-263):
`NETWORKS.get(network_name, NETWORKS[DEFAULT_NETWORK])` — an unknown name
silently falls back to the default network's configuration.
`NETWORKS[DEFAULT_NETWORK]` is the Arbitrum Sepolia row. -/
def get_network_config (network_name : Option String) : NetworkConfig :=
  let n := network_name.getD DEFAULT_NETWORK
  (NETWORKS n).getD arbitrumSepoliaConfig

/-- The `CONTRACT_ADDRESSES` dict (config.py lines 196-207).  The
`arbitrum_one` entries hold Python `None` ("TODO: Add when deployed"),
which `.get` returns unchanged; both a missing key and a `None` value are
therefore embedded as `none`. -/
def CONTRACT_ADDRESSES (network_name contract_name : String) : Option String :=
  if network_name = "arbitrum_sepolia" then
    if contract_name = "escrow" then some "0x8e601797f52AECD270484151Cc39C4074e0E861E"
    else if contract_name = "arbiter" then some "0xdc58De22A66c81672dA2D885944d343E9d2BFB04"
    else if contract_name = "functions_consumer" then some "0x0A77e401Ea1808e5d91314DE09f12072774b0953"
    else none
  else none

/-- `get_contract_address` (config.py lines 266-270):
`CONTRACT_ADDRESSES.get(network_name, {}).get(contract_name)` —
returns `None` for any unconfigured combination, never raising. -/
def get_contract_address (contract_name : String) (network_name : Option String) : Option String :=
  CONTRACT_ADDRESSES (network_name.getD DEFAULT_NETWORK) contract_name

/-- ASCII uppercase, embedding Python `str.upper()` on the token symbols
that occur here (all ASCII). -/
def asciiUpper (s : String) : String :=
  String.mk (s.data.map fun c =>
    if 97 ≤ c.toNat ∧ c.toNat ≤ 122 then Char.ofNat (c.toNat - 32) else c)

/-- ASCII lowercase, embedding Python `str.lower()` on the hex addresses
that occur here (all ASCII). -/
def asciiLower (s : String) : String :=
  String.mk (s.data.map fun c =>
    if 65 ≤ c.toNat ∧ c.toNat ≤ 90 then Char.ofNat (c.toNat + 32) else c)

/-- The `TOKEN_ADDRESSES` dict (config.py lines 210-220). -/
def TOKEN_ADDRESSES (network_name token_symbol : String) : Option String :=
  if network_name = "arbitrum_sepolia" then
    if token_symbol = "PYUSD" then some "0x637a1259c6afd7e3adf63993ca7e58bb438ab1b1"
    else if token_symbol = "USDC" then some "0xC9C401E0094B2d3d796Ed074b023551038b84F07"
    else if token_symbol = "USDT" then some "0xC9C401E0094B2d3d796Ed074b023551038b84F07"
    else none
  else if network_name = "arbitrum_one" then
    if token_symbol = "USDC" then some "0xaf88d065e77c8cC2239327C5EDb3A432268e5831"
    else if token_symbol = "USDT" then some "0xFd086bC7CD5C481DCC9C85ebE478A1C0b69FCbb9"
    else none
  else none

/-- `get_token_address` (config.py lines 273-277):
`TOKEN_ADDRESSES.get(network_name, {}).get(token_symbol.upper())`. -/
def get_token_address (token_symbol : String) (network_name : Option String) : Option String :=
  TOKEN_ADDRESSES (network_name.getD DEFAULT_NETWORK) (asciiUpper token_symbol)

/-- `ESCROW_TYPES` (config.py lines 223-227). -/
def ESCROW_TYPES (escrow_type : String) : Option Nat :=
  if escrow_type = "api_approval" then some 0
  else if escrow_type = "onchain_approval" then some 1
  else if escrow_type = "disputable" then some 2
  else none

/-- `LISTING_STATES` (config.py lines 230-238). -/
def LISTING_STATES (state : String) : Option Nat :=
  if state = "open" then some 0
  else if state = "filled" then some 1
  else if state = "delivered" then some 2
  else if state = "released" then some 3
  else if state = "refunded" then some 4
  else if state = "disputed" then some 5
  else if state = "canceled" then some 6
  else none

/-! ## contract_service.py — escrow resolution and gas estimation -/

/-- `ContractService.get_escrow_contract` address resolution
(contract_service.py lines 47-49): raises `ValueError` when
`get_contract_address('escrow', network)` is `None`. -/
def contractservice_escrow_address (network_name : String) : Except String String :=
  match get_contract_address "escrow" (some network_name) with
  | none => .error "Escrow contract not deployed"
  | some a => .ok a

/-- Python `int(e * 1.2)` for a nonnegative integer gas estimate `e`
(used throughout transaction_builder.py and in
`ContractService.estimate_gas`, line 136).  `int(·)` truncates, so this
is `⌊6·e/5⌋`; for `e < 2^50` the double-precision product in the source
truncates to the same value, so the embedding is exact there. -/
def gasBuffer12 (e : Nat) : Nat := 6 * e / 5

/-- Python `int(e * 1.5)` (transaction_builder.py line 485, the
api-approval delivery builder). -/
def gasBuffer15 (e : Nat) : Nat := 3 * e / 2

/-- `ContractService.estimate_gas` (contract_service.py lines 118-140):
buffers a successful estimate by `int(e*1.2)` and absorbs a failed RPC
call into the fixed default 300000.  The RPC outcome is the `Option`
argument (`none` = the call raised). -/
def contractservice_estimate_gas (rpcEstimate : Option Nat) : Nat :=
  match rpcEstimate with
  | some e => gasBuffer12 e
  | none => 300000

/-! ## transaction_builder.py — amount scaling and unsigned transactions -/

/-- Python `int(x)` on a rational: truncation toward zero. -/
def pyInt (q : ℚ) : Int :=
  if 0 ≤ q then ⌊q⌋ else -⌊-q⌋

/-- `int(amount_in_tokens * 10**token_decimals)`
(transaction_builder.py lines 153 and 275): the minor-unit amount used
in built transactions. -/
def scaleAmount (amount_in_tokens : ℚ) (token_decimals : Nat) : Int :=
  pyInt (amount_in_tokens * 10 ^ token_decimals)

/-- The spec's amount scaling, stated for comparison with `scaleAmount`:
`amountMinorUnits = round(amountInTokens * 10^tokenDecimals)`
(spec §4.3); `round` rounds to the nearest integer. -/
def specRoundAmount (amount_in_tokens : ℚ) (token_decimals : Nat) : Int :=
  round (amount_in_tokens * 10 ^ token_decimals)

/-- The spec's gas buffer, stated for comparison with `gasBuffer12`:
`ceil(estimate * 1.2)` (spec §4.2/§8), i.e. `⌈6·e/5⌉`. -/
def specCeilGasBuffer (e : Nat) : Nat := (6 * e + 4) / 5

/-- Symbolic ABI call data: the contract method and arguments that
`contract_function._encode_transaction_data()` encodes for each builder.
Extra data (`bytes`) is a byte list. -/
inductive CallData where
  | createListing (listingId tokenAddress : String) (amount : Int)
      (expiration : Nat) (escrowType : Nat)
  | approve (spender : String) (amount : Int)
  | fillListing (listingId : String) (deadline : Nat) (extraData : List Nat)
  | deliverDisputable (listingId : String)
  | deliverOnchainApproval (listingId : String)
  | deliverApiApproval (listingId : String) (slotId version subscriptionId gasLimit : Nat)
      (donId : String)
  | resolveListing (listingId : String) (toBuyer : Bool)
  | disputeListing (listingId : String)
deriving DecidableEq, Repr

/-- An unsigned transaction descriptor as built by every
`TransactionBuilder.build_*` method: the dict
`{to, value, chainId, data, from?, gas}`.  A `gas` key is written on
every control path of every builder, hence a plain `Nat` field; `from`
is present only when a sender address was supplied. -/
structure Tx where
  toAddr : String
  value : Nat
  chainId : Nat
  data : CallData
  fromAddr : Option String
  gas : Nat
deriving DecidableEq, Repr

/-- The escrow address the process-wide `transaction_builder` singleton
is bound to: `get_contract_address('escrow', DEFAULT_NETWORK)`
(transaction_builder.py line 94).  Construction of the singleton
succeeds only when this address exists (ContractService raises
otherwise), and on the default network it is the Sepolia escrow. -/
def singletonEscrowAddress : String := "0x8e601797f52AECD270484151Cc39C4074e0E861E"

/-- The chain id of the singleton builder's network
(`self.network_config['chain_id']`). -/
def singletonChainId : Nat := 421614

/-- Gas selection shared by every builder body
(e.g. transaction_builder.py lines 177-189): with a sender, a successful
estimate is buffered by `int(e*1.2)` and a failed estimate falls back to
the action default; without a sender the default is used directly. -/
def gasField (from_address : Option String) (gasEstimate : Option Nat) (defaultGas : Nat) : Nat :=
  match from_address, gasEstimate with
  | some _, some e => gasBuffer12 e
  | some _, none => defaultGas
  | none, _ => defaultGas

/-- `TransactionBuilder.build_create_listing_transaction`
(transaction_builder.py lines 123-191).  Raises (here `.error`) when the
token symbol or escrow type is unknown; the gas-estimation RPC outcome
is the `gasEstimate` argument. -/
def build_create_listing_transaction (listing_id token_symbol : String)
    (amount_in_tokens : ℚ) (expiration_timestamp : Nat) (escrow_type : String)
    (from_address : Option String) (gasEstimate : Option Nat)
    (token_decimals : Nat) : Except String Tx :=
  match get_token_address token_symbol none with
  | none => .error "Token not found"
  | some token_address =>
    let amount_wei := scaleAmount amount_in_tokens token_decimals
    match ESCROW_TYPES escrow_type with
    | none => .error "Invalid escrow type"
    | some escrow_type_value =>
      .ok { toAddr := singletonEscrowAddress
            value := 0
            chainId := singletonChainId
            data := .createListing listing_id token_address amount_wei
              expiration_timestamp escrow_type_value
            fromAddr := from_address
            gas := gasField from_address gasEstimate 200000 }

/-- `TransactionBuilder.build_approve_token_transaction`
(transaction_builder.py lines 251-306): sent to the token contract, not
the escrow; default gas 100000. -/
def build_approve_token_transaction (token_symbol : String) (amount_in_tokens : ℚ)
    (from_address : Option String) (gasEstimate : Option Nat)
    (token_decimals : Nat) : Except String Tx :=
  match get_token_address token_symbol none with
  | none => .error "Token not found"
  | some token_address =>
    let amount_wei := scaleAmount amount_in_tokens token_decimals
    .ok { toAddr := token_address
          value := 0
          chainId := singletonChainId
          data := .approve singletonEscrowAddress amount_wei
          fromAddr := from_address
          gas := gasField from_address gasEstimate 100000 }

/-- `TransactionBuilder.build_fill_listing_transaction`
(transaction_builder.py lines 308-355): default gas 2000000, extra data
defaults to the empty byte string. -/
def build_fill_listing_transaction (listing_id : String) (deadline_timestamp : Nat)
    (from_address : Option String) (extra_data : List Nat)
    (gasEstimate : Option Nat) : Tx :=
  { toAddr := singletonEscrowAddress
    value := 0
    chainId := singletonChainId
    data := .fillListing listing_id deadline_timestamp extra_data
    fromAddr := from_address
    gas := gasField from_address gasEstimate 2000000 }

/-- `TransactionBuilder.build_deliver_disputable_transaction`
(transaction_builder.py lines 357-398): default gas 150000. -/
def build_deliver_disputable_transaction (listing_id : String)
    (from_address : Option String) (gasEstimate : Option Nat) : Tx :=
  { toAddr := singletonEscrowAddress
    value := 0
    chainId := singletonChainId
    data := .deliverDisputable listing_id
    fromAddr := from_address
    gas := gasField from_address gasEstimate 150000 }

/-- `TransactionBuilder.build_deliver_onchain_approval_transaction`
(transaction_builder.py lines 400-441): default gas 200000. -/
def build_deliver_onchain_approval_transaction (listing_id : String)
    (from_address : Option String) (gasEstimate : Option Nat) : Tx :=
  { toAddr := singletonEscrowAddress
    value := 0
    chainId := singletonChainId
    data := .deliverOnchainApproval listing_id
    fromAddr := from_address
    gas := gasField from_address gasEstimate 200000 }

/-- Chainlink oracle parameters (config.py lines 31-36), at their
in-code defaults. -/
def CHAINLINK_SUBSCRIPTION_ID : Nat := 518

/-- `CHAINLINK_GAS_LIMIT` (config.py line 32). -/
def CHAINLINK_GAS_LIMIT : Nat := 300000

/-- `CHAINLINK_DON_ID` (config.py line 33), at its in-code default. -/
def CHAINLINK_DON_ID : String :=
  "0x66756e2d617262697472756d2d7365706f6c69612d3100000000000000000000"

/-- `TransactionBuilder.build_deliver_api_approval_transaction`
(transaction_builder.py lines 443-491): buffer multiplier 1.5, default
gas 2500000. -/
def build_deliver_api_approval_transaction (listing_id : String)
    (from_address : Option String) (gasEstimate : Option Nat) : Tx :=
  { toAddr := singletonEscrowAddress
    value := 0
    chainId := singletonChainId
    data := .deliverApiApproval listing_id 0 0 CHAINLINK_SUBSCRIPTION_ID
      CHAINLINK_GAS_LIMIT CHAINLINK_DON_ID
    fromAddr := from_address
    gas := match from_address, gasEstimate with
      | some _, some e => gasBuffer15 e
      | some _, none => 2500000
      | none, _ => 2500000 }

/-- `TransactionBuilder.build_resolve_listing_transaction`
(transaction_builder.py lines 493-537): default gas 200000. -/
def build_resolve_listing_transaction (listing_id : String) (to_buyer : Bool)
    (from_address : Option String) (gasEstimate : Option Nat) : Tx :=
  { toAddr := singletonEscrowAddress
    value := 0
    chainId := singletonChainId
    data := .resolveListing listing_id to_buyer
    fromAddr := from_address
    gas := gasField from_address gasEstimate 200000 }

/-- `TransactionBuilder.build_dispute_listing_transaction`
(transaction_builder.py lines 539-585): payable with the entropy fee;
default gas 300000. -/
def build_dispute_listing_transaction (listing_id : String) (entropy_fee_wei : Nat)
    (from_address : Option String) (gasEstimate : Option Nat) : Tx :=
  { toAddr := singletonEscrowAddress
    value := entropy_fee_wei
    chainId := singletonChainId
    data := .disputeListing listing_id
    fromAddr := from_address
    gas := gasField from_address gasEstimate 300000 }

/-- `calculate_expiration_timestamp` (transaction_builder.py lines
193-206): current time plus `duration_days * 24 * 60 * 60`. -/
def calculate_expiration_timestamp (currentTime duration_days : Nat) : Nat :=
  currentTime + duration_days * 24 * 60 * 60

/-- `calculate_deadline_timestamp` (transaction_builder.py lines
587-599). -/
def calculate_deadline_timestamp (currentTime deadline_days : Nat) : Nat :=
  currentTime + deadline_days * 24 * 60 * 60

/-- `get_entropy_fee` (transaction_builder.py lines 601-616): a failed
`getFee()` read falls back to `int(0.001 * 10**18) = 10^15`.  The RPC
outcome is the argument. -/
def get_entropy_fee (feeRead : Option Nat) : Nat :=
  feeRead.getD 1000000000000000

/-! ## views.py — persisted records and the state-machine view handlers

The Django ORM rows the cited views touch, with the fields they read or
write.  `User.username` is the lowercased wallet address (WalletAuthView,
views.py lines 53-58), so user references are embedded as those
usernames. -/

/-- An `Order` row (fields used by the cited views). -/
structure OrderRec where
  pk : Nat
  orderId : String
  listingPk : Nat
  buyer : String
  seller : String
  amount : ℚ
  tokenAddress : String
  status : String
  escrowTxHash : Option String
deriving DecidableEq, Repr

/-- A `Listing` row (fields used by the cited views). -/
structure ListingRec where
  pk : Nat
  seller : String
  title : String
  price : ℚ
  currency : String
  tokenAddress : String
  escrowType : String
  status : String
  blockchainListingId : String
  blockchainStatus : String
deriving DecidableEq, Repr

/-- A `Dispute` row (fields the `ConfirmDisputeView` writes). -/
structure DisputeRec where
  orderPk : Nat
  initiator : String
  reason : String
  status : String
deriving DecidableEq, Repr

/-- The database state the cited views read and write. -/
structure DB where
  users : List String
  listings : List ListingRec
  orders : List OrderRec
  disputes : List DisputeRec
deriving DecidableEq, Repr

/-- `Order.objects.all()` + `self.get_object()` by primary key. -/
def findOrder (db : DB) (pk : Nat) : Option OrderRec :=
  db.orders.find? (fun o => o.pk == pk)

/-- `Listing.objects.all()` + `self.get_object()` by primary key. -/
def findListing (db : DB) (pk : Nat) : Option ListingRec :=
  db.listings.find? (fun l => l.pk == pk)

/-- `order.save()`: writes the row with this primary key back. -/
def updateOrder (db : DB) (o : OrderRec) : DB :=
  { db with orders := db.orders.map (fun x => if x.pk == o.pk then o else x) }

/-- `listing.save()`: writes the row with this primary key back. -/
def updateListing (db : DB) (l : ListingRec) : DB :=
  { db with listings := db.listings.map (fun x => if x.pk == l.pk then l else x) }

/-- A transaction receipt as the views read it:
`tx_receipt['status']` and `tx_receipt['to']` (the destination is absent
for contract-creation transactions, hence `Option`). -/
structure Receipt where
  status : Nat
  toAddr : Option String
deriving DecidableEq, Repr

/-- The chain, as observed through `w3.eth.get_transaction_receipt`:
`none` means the node raised (receipt not found / RPC failure). -/
def Chain : Type := String → Option Receipt

/-- A view handler's outcome: a success response (optionally carrying
the built unsigned transaction) or an error response with its HTTP
status code. -/
inductive HandlerResult where
  | ok (tx : Option Tx)
  | err (httpStatus : Nat)
deriving DecidableEq, Repr

/-- `ConfirmPurchaseView.post` (views.py lines 654-723).  Receipt
lookup failures, a failed status, a receipt whose destination is not the
configured escrow address, and a missing/None escrow address (whose
`.lower()` would raise, caught by the `except`) all answer 400 with no
database write; only a successful receipt aimed at the escrow advances
order → `paid` and listing → `filled`.  (The order's listing is a
non-nullable foreign key, so the missing-listing branch of the inner
match is unreachable; it is kept only to make the function total.) -/
def confirm_purchase (db : DB) (chain : Chain) (pk : Nat) (txHash : String) :
    DB × HandlerResult :=
  match findOrder db pk with
  | none => (db, .err 404)
  | some o =>
    match chain txHash with
    | none => (db, .err 400)
    | some r =>
      if r.status ≠ 1 then (db, .err 400)
      else
        match get_contract_address "escrow" none, r.toAddr with
        | none, _ => (db, .err 400)
        | _, none => (db, .err 400)
        | some escrow, some toA =>
          if asciiLower toA ≠ asciiLower escrow then (db, .err 400)
          else
            let db1 := updateOrder db { o with escrowTxHash := some txHash, status := "paid" }
            let db2 :=
              match findListing db1 o.listingPk with
              | none => db1
              | some l => updateListing db1 { l with status := "filled" }
            (db2, .ok none)

/-- `ConfirmDeliveryTransactionView.post` (views.py lines 780-814): no
receipt is consulted; the order and its listing are set to `delivered`
unconditionally.  (As in `confirm_purchase`, the missing-listing branch
is unreachable and kept only for totality.) -/
def confirm_delivery_transaction (db : DB) (pk : Nat) (txHash : String) :
    DB × HandlerResult :=
  match findOrder db pk with
  | none => (db, .err 404)
  | some o =>
    let _ := txHash
    let db1 := updateOrder db { o with status := "delivered" }
    let db2 :=
      match findListing db1 o.listingPk with
      | none => db1
      | some l => updateListing db1 { l with status := "delivered" }
    (db2, .ok none)

/-- `ConfirmDeliveryTransactionByListingView.post` (views.py lines
865-931): this listing-keyed variant does verify the receipt (success
status and escrow destination) before setting the listing and its `paid`
order to `delivered`. -/
def confirm_delivery_transaction_by_listing (db : DB) (chain : Chain) (pk : Nat)
    (txHash : String) : DB × HandlerResult :=
  match findListing db pk with
  | none => (db, .err 404)
  | some l =>
    match chain txHash with
    | none => (db, .err 400)
    | some r =>
      if r.status ≠ 1 then (db, .err 400)
      else
        match get_contract_address "escrow" none, r.toAddr with
        | none, _ => (db, .err 400)
        | _, none => (db, .err 400)
        | some escrow, some toA =>
          if asciiLower toA ≠ asciiLower escrow then (db, .err 400)
          else
            let db1 := updateListing db { l with status := "delivered" }
            let db2 :=
              match db1.orders.find? (fun o => o.listingPk == l.pk && o.status == "paid") with
              | none => db1
              | some o => updateOrder db1 { o with status := "delivered" }
            (db2, .ok none)

/-- `ConfirmAcceptanceView.post` (views.py lines 989-1019): no receipt
is consulted; the order is set to `completed` unconditionally. -/
def confirm_acceptance (db : DB) (pk : Nat) (txHash : String) :
    DB × HandlerResult :=
  match findOrder db pk with
  | none => (db, .err 404)
  | some o =>
    let _ := txHash
    (updateOrder db { o with status := "completed" }, .ok none)

/-- Modelled from the spec: the `Dispute` model declaration
(`marketplace/models.py`) is not under `src/`; the spec states "Dispute —
one per disputed Order", so `Dispute.objects.create` is embedded with a
one-per-order uniqueness constraint that makes a second create for the
same order fail (as a database integrity error, surfacing as an uncaught
exception in the caller). -/
def dispute_create (db : DB) (d : DisputeRec) : Except Unit DB :=
  if db.disputes.any (fun x => x.orderPk == d.orderPk) then .error ()
  else .ok { db with disputes := db.disputes ++ [d] }

/-- `ConfirmDisputeView.post` (views.py lines 1086-1133): no receipt is
consulted and the wallet is not validated; the order is saved as
`disputed` first, then a `Dispute` is created whose initiator defaults
to the buyer whenever `initiator_wallet` matches neither party (or is
absent).  A failing create (see `dispute_create`) escapes the handler as
a 500 after the status write has already been saved. -/
def confirm_dispute (db : DB) (pk : Nat) (txHash : String)
    (initiatorWallet : Option String) : DB × HandlerResult :=
  match findOrder db pk with
  | none => (db, .err 404)
  | some o =>
    let _ := txHash
    let db1 := updateOrder db { o with status := "disputed" }
    let initiator :=
      if initiatorWallet = some o.buyer then o.buyer
      else if initiatorWallet = some o.seller then o.seller
      else o.buyer
    match dispute_create db1
        { orderPk := o.pk, initiator := initiator
          reason := "Blockchain dispute initiated", status := "open" } with
    | .error _ => (db1, .err 500)
    | .ok db2 => (db2, .ok none)

/-- `DeliverListingTransactionView.post` (views.py lines 728-777): the
seller check (403) precedes the status check (400, only `paid` may be
delivered); both reject without touching the database.  The
gas-estimation RPC outcome feeds the builder. -/
def deliver_listing_transaction (db : DB) (pk : Nat) (sellerWallet : String)
    (gasEstimate : Option Nat) : DB × HandlerResult :=
  match findOrder db pk with
  | none => (db, .err 404)
  | some o =>
    if o.seller ≠ sellerWallet then (db, .err 403)
    else if o.status ≠ "paid" then (db, .err 400)
    else
      match findListing db o.listingPk with
      | none => (db, .err 400)
      | some l =>
        (db, .ok (some (build_deliver_disputable_transaction
          l.blockchainListingId (some sellerWallet) gasEstimate)))

/-- `DeliverListingTransactionByListingView.post` (views.py lines
817-862): same shape keyed by listing; seller check first, then the
`filled` status check. -/
def deliver_listing_transaction_by_listing (db : DB) (pk : Nat)
    (sellerWallet : String) (gasEstimate : Option Nat) : DB × HandlerResult :=
  match findListing db pk with
  | none => (db, .err 404)
  | some l =>
    if l.seller ≠ sellerWallet then (db, .err 403)
    else if l.status ≠ "filled" then (db, .err 400)
    else
      (db, .ok (some (build_deliver_disputable_transaction
        l.blockchainListingId (some sellerWallet) gasEstimate)))

/-- `AcceptDeliveryTransactionView.post` (views.py lines 936-986): buyer
check (403) then `delivered` status check (400); on success builds
`resolveListing(id, toBuyer=False)`. -/
def accept_delivery_transaction (db : DB) (pk : Nat) (buyerWallet : String)
    (gasEstimate : Option Nat) : DB × HandlerResult :=
  match findOrder db pk with
  | none => (db, .err 404)
  | some o =>
    if o.buyer ≠ buyerWallet then (db, .err 403)
    else if o.status ≠ "delivered" then (db, .err 400)
    else
      match findListing db o.listingPk with
      | none => (db, .err 400)
      | some l =>
        (db, .ok (some (build_resolve_listing_transaction
          l.blockchainListingId false (some buyerWallet) gasEstimate)))

/-- `DisputeListingTransactionView.post` (views.py lines 1022-1083):
rejects a wallet that is neither the buyer nor the seller (403), then a
status outside {delivered, paid} (400); the entropy fee read falls back
to `int(0.001 * 10**18)` on failure. -/
def dispute_listing_transaction (db : DB) (pk : Nat) (walletAddress : String)
    (feeRead : Option Nat) (gasEstimate : Option Nat) : DB × HandlerResult :=
  match findOrder db pk with
  | none => (db, .err 404)
  | some o =>
    if walletAddress ≠ o.buyer ∧ walletAddress ≠ o.seller then (db, .err 403)
    else if o.status ≠ "delivered" ∧ o.status ≠ "paid" then (db, .err 400)
    else
      match findListing db o.listingPk with
      | none => (db, .err 400)
      | some l =>
        (db, .ok (some (build_dispute_listing_transaction
          l.blockchainListingId (get_entropy_fee feeRead) (some walletAddress) gasEstimate)))

/-! ## Identifier generation — SHA-256

`generate_listing_id` (transaction_builder.py lines 102-121) and the
inline order-id computation in `PurchaseListingTransactionView.post`
(views.py lines 612-615) both take `'0x' + hashlib.sha256(...).hexdigest()`
of a concatenation.  SHA-256 is embedded in full below over byte lists
(`Nat` values below 256). -/

/-- 2^32, the word modulus of SHA-256. -/
def M32 : Nat := 4294967296

/-- 32-bit right rotation. -/
def rotr32 (n x : Nat) : Nat := ((x >>> n) ||| (x <<< (32 - n))) % M32

/-- SHA-256 small sigma 0. -/
def ssig0 (x : Nat) : Nat := (rotr32 7 x) ^^^ (rotr32 18 x) ^^^ (x >>> 3)

/-- SHA-256 small sigma 1. -/
def ssig1 (x : Nat) : Nat := (rotr32 17 x) ^^^ (rotr32 19 x) ^^^ (x >>> 10)

/-- SHA-256 big sigma 0. -/
def bsig0 (x : Nat) : Nat := (rotr32 2 x) ^^^ (rotr32 13 x) ^^^ (rotr32 22 x)

/-- SHA-256 big sigma 1. -/
def bsig1 (x : Nat) : Nat := (rotr32 6 x) ^^^ (rotr32 11 x) ^^^ (rotr32 25 x)

/-- SHA-256 choice function (bitwise not is complement within 32 bits). -/
def chF (x y z : Nat) : Nat := (x &&& y) ^^^ ((x ^^^ 4294967295) &&& z)

/-- SHA-256 majority function. -/
def majF (x y z : Nat) : Nat := (x &&& y) ^^^ (x &&& z) ^^^ (y &&& z)

/-- The SHA-256 round constants (decimal). -/
def sha256K : List Nat :=
  [1116352408, 1899447441, 3049323471, 3921009573, 961987163, 1508970993,
   2453635748, 2870763221, 3624381080, 310598401, 607225278, 1426881987,
   1925078388, 2162078206, 2614888103, 3248222580, 3835390401, 4022224774,
   264347078, 604807628, 770255983, 1249150122, 1555081692, 1996064986,
   2554220882, 2821834349, 2952996808, 3210313671, 3336571891, 3584528711,
   113926993, 338241895, 666307205, 773529912, 1294757372, 1396182291,
   1695183700, 1986661051, 2177026350, 2456956037, 2730485921, 2820302411,
   3259730800, 3345764771, 3516065817, 3600352804, 4094571909, 275423344,
   430227734, 506948616, 659060556, 883997877, 958139571, 1322822218,
   1537002063, 1747873779, 1955562222, 2024104815, 2227730452, 2361852424,
   2428436474, 2756734187, 3204031479, 3329325298]

/-- The eight SHA-256 working registers / hash state. -/
structure H8 where
  a : Nat
  b : Nat
  c : Nat
  d : Nat
  e : Nat
  f : Nat
  g : Nat
  h : Nat
deriving DecidableEq, Repr

/-- The SHA-256 initial hash value (decimal). -/
def sha256init : H8 :=
  ⟨1779033703, 3144134277, 1013904242, 2773480762,
   1359893119, 2600822924, 528734635, 1541459225⟩

/-- Big-endian bytes of `n`, `len` bytes wide. -/
def beBytes (n len : Nat) : List Nat :=
  (List.range len).map (fun i => (n >>> (8 * (len - 1 - i))) % 256)

/-- SHA-256 padding: append 0x80, zeros to 56 mod 64, then the bit
length as 8 big-endian bytes. -/
def sha256pad (msg : List Nat) : List Nat :=
  let L := msg.length
  let zeros := (119 - L % 64) % 64
  msg ++ [128] ++ List.replicate zeros 0 ++ beBytes (8 * L) 8

/-- The first 16 schedule words of a 64-byte chunk (big-endian). -/
def chunkWords (chunk : List Nat) : List Nat :=
  (List.range 16).map (fun i =>
    chunk.getD (4 * i) 0 * 16777216 + chunk.getD (4 * i + 1) 0 * 65536 +
    chunk.getD (4 * i + 2) 0 * 256 + chunk.getD (4 * i + 3) 0)

/-- Extends the message schedule by `n` further words. -/
def extendSchedule : Nat → List Nat → List Nat
  | 0, w => w
  | n + 1, w =>
    let i := w.length
    let wi := (w.getD (i - 16) 0 + ssig0 (w.getD (i - 15) 0) +
               w.getD (i - 7) 0 + ssig1 (w.getD (i - 2) 0)) % M32
    extendSchedule n (w ++ [wi])

/-- The full 64-word message schedule of a chunk. -/
def schedule (chunk : List Nat) : List Nat :=
  extendSchedule 48 (chunkWords chunk)

/-- One SHA-256 compression round. -/
def compressRound (s : H8) (ki wi : Nat) : H8 :=
  let t1 := (s.h + bsig1 s.e + chF s.e s.f s.g + ki + wi) % M32
  let t2 := (bsig0 s.a + majF s.a s.b s.c) % M32
  ⟨(t1 + t2) % M32, s.a, s.b, s.c, (s.d + t1) % M32, s.e, s.f, s.g⟩

/-- Compression of one 64-byte chunk into the running hash. -/
def compressChunk (h0 : H8) (chunk : List Nat) : H8 :=
  let s := ((sha256K.zip (schedule chunk)).foldl
    (fun s p => compressRound s p.1 p.2) h0)
  ⟨(h0.a + s.a) % M32, (h0.b + s.b) % M32, (h0.c + s.c) % M32, (h0.d + s.d) % M32,
   (h0.e + s.e) % M32, (h0.f + s.f) % M32, (h0.g + s.g) % M32, (h0.h + s.h) % M32⟩

/-- The `i`-th 64-byte chunk of a byte list. -/
def chunkAt (l : List Nat) (i : Nat) : List Nat :=
  (l.drop (64 * i)).take 64

/-- The SHA-256 hash state of a byte message: the padded message (whose
length is a multiple of 64) is compressed chunk by chunk. -/
def sha256H (msg : List Nat) : H8 :=
  let padded := sha256pad msg
  (List.range (padded.length / 64)).foldl
    (fun h i => compressChunk h (chunkAt padded i)) sha256init

/-- One lowercase hex digit. -/
def hexDigitChar (n : Nat) : Char :=
  if n < 10 then Char.ofNat (48 + n) else Char.ofNat (87 + n)

/-- Eight lowercase hex digits of a 32-bit word (big-endian). -/
def wordHex8 (w : Nat) : List Char :=
  (List.range 8).map (fun i => hexDigitChar ((w >>> (4 * (7 - i))) % 16))

/-- `hashlib.sha256(...).hexdigest()`: 64 lowercase hex characters. -/
def sha256hexChars (msg : List Nat) : List Char :=
  let s := sha256H msg
  wordHex8 s.a ++ wordHex8 s.b ++ wordHex8 s.c ++ wordHex8 s.d ++
  wordHex8 s.e ++ wordHex8 s.f ++ wordHex8 s.g ++ wordHex8 s.h

/-- `hashlib.sha256(...).hexdigest()` as a string. -/
def sha256hexStr (msg : List Nat) : String := String.mk (sha256hexChars msg)

/-- `str.encode()` for the ASCII strings hashed here (UTF-8 agrees with
the code points below 128). -/
def strBytes (s : String) : List Nat := s.data.map Char.toNat

/-- `TransactionBuilder.generate_listing_id` (transaction_builder.py
lines 102-121): `'0x' + sha256(f"{seller_address}{title}{timestamp}").hexdigest()`
— the parts and the timestamp salt concatenated with no separator. -/
def generate_listing_id (seller_address title : String) (timestamp : Nat) : String :=
  "0x" ++ sha256hexStr (strBytes (seller_address ++ title ++ toString timestamp))

/-- The inline order-id computation of `PurchaseListingTransactionView.post`
(views.py lines 612-615):
`'0x' + sha256(f"{listing.blockchain_listing_id}_{buyer_wallet}_{datetime.now()}").hexdigest()`
— a separate implementation that underscore-joins its parts and salts
with the `datetime.now()` string (passed here as `nowStr`). -/
def purchase_order_id (blockchainListingId buyerWallet nowStr : String) : String :=
  "0x" ++ sha256hexStr (strBytes (blockchainListingId ++ "_" ++ buyerWallet ++ "_" ++ nowStr))

/-- `PurchaseListingTransactionView.post` (views.py lines 568-651):
looks the listing up with `status='open'`, requires an authenticated
buyer distinct from the seller, creates the `Order` row (status
`created`) and builds the `fillListing` transaction with
`extra_data=b''` — the empty byte string — for every listing, whatever
its `escrow_type`.  `currentTime` and `nowStr` are the clock inputs and
`newOrderPk` the database-assigned primary key. -/
def purchase_listing_transaction (db : DB) (listingPk : Nat) (buyerWallet : String)
    (deadlineDays : Nat) (currentTime : Nat) (nowStr : String) (newOrderPk : Nat)
    (gasEstimate : Option Nat) : DB × HandlerResult :=
  match db.listings.find? (fun l => l.pk == listingPk && l.status == "open") with
  | none => (db, .err 404)
  | some l =>
    if ¬ buyerWallet ∈ db.users then (db, .err 404)
    else if buyerWallet = l.seller then (db, .err 400)
    else
      let ddl := calculate_deadline_timestamp currentTime deadlineDays
      let oid := purchase_order_id l.blockchainListingId buyerWallet nowStr
      let o : OrderRec :=
        { pk := newOrderPk, orderId := oid, listingPk := l.pk
          buyer := buyerWallet, seller := l.seller, amount := l.price
          tokenAddress := l.tokenAddress, status := "created", escrowTxHash := none }
      let db1 := { db with orders := db.orders ++ [o] }
      (db1, .ok (some (build_fill_listing_transaction
        l.blockchainListingId ddl (some buyerWallet) [] gasEstimate)))

/-! ## Auxiliary definitions for the theorems -/

/-- Number of `Dispute` rows referencing an order. -/
def disputeCount (db : DB) (orderPk : Nat) : Nat :=
  (db.disputes.filter (fun d => d.orderPk == orderPk)).length

/-- A lowercase hexadecimal digit (as produced by `hexdigest()`). -/
def isLowerHexDigit (c : Char) : Prop :=
  (48 ≤ c.toNat ∧ c.toNat ≤ 57) ∨ (97 ≤ c.toNat ∧ c.toNat ≤ 102)

instance (c : Char) : Decidable (isLowerHexDigit c) := by
  unfold isLowerHexDigit; infer_instance

/-- Concrete wallet addresses (validated serializer format: `0x` plus 40
hex characters, lowercase) for the concrete-input theorems. -/
def buyerAddr : String := "0xaaaaaaaaaaaaaaaaaaaaaaaaaaaaaaaaaaaaaaaa"

/-- A concrete seller wallet address. -/
def sellerAddr : String := "0xbbbbbbbbbbbbbbbbbbbbbbbbbbbbbbbbbbbbbbbb"

/-- A concrete wallet address that is neither the buyer nor the seller. -/
def strangerAddr : String := "0xcccccccccccccccccccccccccccccccccccccccc"

/-- A concrete contract address different from the escrow contract. -/
def otherContractAddr : String := "0xdddddddddddddddddddddddddddddddddddddddd"

/-- A concrete transaction hash (66 characters). -/
def exTxHash : String :=
  "0x1111111111111111111111111111111111111111111111111111111111111111"

/-- A concrete listing row with a given status and escrow type. -/
def exListing (st escrowTy : String) : ListingRec :=
  { pk := 1, seller := sellerAddr, title := "Widget", price := 10
    currency := "PYUSD", tokenAddress := "0x637a1259c6afd7e3adf63993ca7e58bb438ab1b1"
    escrowType := escrowTy, status := st
    blockchainListingId := "0x2222222222222222222222222222222222222222222222222222222222222222"
    blockchainStatus := "confirmed" }

/-- A concrete order row with a given status. -/
def exOrder (st : String) : OrderRec :=
  { pk := 1, orderId := "0xorder", listingPk := 1
    buyer := buyerAddr, seller := sellerAddr, amount := 10
    tokenAddress := "0x637a1259c6afd7e3adf63993ca7e58bb438ab1b1"
    status := st, escrowTxHash := none }

/-- A concrete database with one listing and one order in the given
statuses, and no disputes. -/
def exDB (listingSt orderSt : String) : DB :=
  { users := [buyerAddr, sellerAddr]
    listings := [exListing listingSt "disputable"]
    orders := [exOrder orderSt]
    disputes := [] }

/-- A chain holding, for the concrete transaction hash, a successful
receipt whose destination is NOT the escrow contract. -/
def wrongTargetChain : Chain := fun h =>
  if h = exTxHash then some { status := 1, toAddr := some otherContractAddr } else none

/-! ## Helper lemmas -/

theorem findOrder_pk {db : DB} {pk : Nat} {o : OrderRec}
    (h : findOrder db pk = some o) : o.pk = pk := by
  rw [findOrder] at h
  simpa using List.find?_some h

theorem find?_map_update (l : List OrderRec) (pk : Nat) (o o' : OrderRec)
    (h : l.find? (fun x => x.pk == pk) = some o) (h2 : o'.pk = pk) :
    (l.map (fun x => if x.pk == o'.pk then o' else x)).find? (fun x => x.pk == pk)
      = some o' := by
  induction l with
  | nil => simp at h
  | cons a as ih =>
    by_cases ha : a.pk = pk
    · simp [List.find?_cons, ha, h2]
    · have hb : (a.pk == pk) = false := by simpa using ha
      have hb2 : (a.pk == o'.pk) = false := by rw [h2]; simpa using ha
      simp only [List.find?_cons, hb] at h
      have hfa : (if (a.pk == o'.pk) = true then o' else a) = a := by
        rw [hb2]
        simp
      rw [List.map_cons, hfa]
      simp only [List.find?_cons, hb]
      exact ih h

theorem findOrder_update {db : DB} {pk : Nat} {o o' : OrderRec}
    (h : findOrder db pk = some o) (h2 : o'.pk = pk) :
    findOrder (updateOrder db o') pk = some o' := by
  rw [findOrder] at h
  rw [findOrder, updateOrder]
  exact find?_map_update db.orders pk o o' h h2

theorem findOrder_updateListing (db : DB) (l : ListingRec) (pk : Nat) :
    findOrder (updateListing db l) pk = findOrder db pk := rfl

/-! ## C5 — gas field of built transactions -/

/-- C5 (counterexample): the claim says a successful estimate yields
`gas = ceil(estimate * 1.2)`.  The code computes Python
`int(estimate * 1.2)`, which truncates: for the estimate 1 the built
transaction carries `gas = 1` — not `ceil(1.2) = 2`, and identical to
the raw unbuffered estimate, which the claim also rules out. -/
theorem C5_counterexample :
    (build_fill_listing_transaction "0xid" 0 (some buyerAddr) [] (some 1)).gas = 1 ∧
    specCeilGasBuffer 1 = 2 ∧
    (build_fill_listing_transaction "0xid" 0 (some buyerAddr) [] (some 1)).gas ≠
      specCeilGasBuffer 1 := by
  refine ⟨rfl, rfl, ?_⟩
  decide

/-- C5 (amended): for every builder, when a sender is present and the
gas estimation RPC succeeds with estimate `e` the gas field is the
truncated buffer `int(e * 1.2) = ⌊6e/5⌋` (`int(e * 1.5) = ⌊3e/2⌋` for
the api-approval delivery); when estimation fails, or no sender is
given, it is the action's fixed default.  The gas field is always
present (it is a total field of the descriptor). -/
theorem C5_amended :
    (∀ id ddl a ed e, (build_fill_listing_transaction id ddl (some a) ed (some e)).gas
        = gasBuffer12 e) ∧
    (∀ id ddl a ed, (build_fill_listing_transaction id ddl (some a) ed none).gas = 2000000) ∧
    (∀ id ddl ed est, (build_fill_listing_transaction id ddl none ed est).gas = 2000000) ∧
    (∀ id a e, (build_deliver_disputable_transaction id (some a) (some e)).gas
        = gasBuffer12 e) ∧
    (∀ id a, (build_deliver_disputable_transaction id (some a) none).gas = 150000) ∧
    (∀ id est, (build_deliver_disputable_transaction id none est).gas = 150000) ∧
    (∀ id a e, (build_deliver_onchain_approval_transaction id (some a) (some e)).gas
        = gasBuffer12 e) ∧
    (∀ id a, (build_deliver_onchain_approval_transaction id (some a) none).gas = 200000) ∧
    (∀ id est, (build_deliver_onchain_approval_transaction id none est).gas = 200000) ∧
    (∀ id a e, (build_deliver_api_approval_transaction id (some a) (some e)).gas
        = gasBuffer15 e) ∧
    (∀ id a, (build_deliver_api_approval_transaction id (some a) none).gas = 2500000) ∧
    (∀ id est, (build_deliver_api_approval_transaction id none est).gas = 2500000) ∧
    (∀ id tb a e, (build_resolve_listing_transaction id tb (some a) (some e)).gas
        = gasBuffer12 e) ∧
    (∀ id tb a, (build_resolve_listing_transaction id tb (some a) none).gas = 200000) ∧
    (∀ id tb est, (build_resolve_listing_transaction id tb none est).gas = 200000) ∧
    (∀ id fee a e, (build_dispute_listing_transaction id fee (some a) (some e)).gas
        = gasBuffer12 e) ∧
    (∀ id fee a, (build_dispute_listing_transaction id fee (some a) none).gas = 300000) ∧
    (∀ id fee est, (build_dispute_listing_transaction id fee none est).gas = 300000) ∧
    (∀ id q exp a e d, (build_create_listing_transaction id "PYUSD" q exp "disputable"
        (some a) (some e) d).map Tx.gas = .ok (gasBuffer12 e)) ∧
    (∀ id q exp a d, (build_create_listing_transaction id "PYUSD" q exp "disputable"
        (some a) none d).map Tx.gas = .ok 200000) ∧
    (∀ id q exp est d, (build_create_listing_transaction id "PYUSD" q exp "disputable"
        none est d).map Tx.gas = .ok 200000) ∧
    (∀ q a e d, (build_approve_token_transaction "PYUSD" q (some a) (some e) d).map Tx.gas
        = .ok (gasBuffer12 e)) ∧
    (∀ q a d, (build_approve_token_transaction "PYUSD" q (some a) none d).map Tx.gas
        = .ok 100000) ∧
    (∀ q est d, (build_approve_token_transaction "PYUSD" q none est d).map Tx.gas
        = .ok 100000) ∧
    (∀ e, contractservice_estimate_gas (some e) = gasBuffer12 e) ∧
    contractservice_estimate_gas none = 300000 := by
  repeat' constructor
  all_goals intros
  all_goals rfl

/-! ## C6 — minor-unit amount scaling -/

/-- C6 (counterexample): the claim says the minor-unit amount equals
`round(amountInTokens * 10^tokenDecimals)` for every amount and decimal
count.  The code computes Python `int(...)`, which truncates: an amount
of 19/10^7 tokens at 6 decimals is built with
`int(1.9) = 1` minor units, while `round(1.9) = 2`. -/
theorem C6_counterexample :
    (build_create_listing_transaction "0xid" "PYUSD" (19 / 10000000) 100 "disputable"
        none none 6)
      = .ok { toAddr := singletonEscrowAddress, value := 0, chainId := singletonChainId
              data := .createListing "0xid" "0x637a1259c6afd7e3adf63993ca7e58bb438ab1b1"
                (scaleAmount (19 / 10000000) 6) 100 2
              fromAddr := none, gas := 200000 } ∧
    scaleAmount (19 / 10000000) 6 = 1 ∧
    specRoundAmount (19 / 10000000) 6 = 2 := by
  have h1 : ((19 : ℚ) / 10000000) * 10 ^ 6 = 19 / 10 := by norm_num
  refine ⟨rfl, ?_, ?_⟩
  · rw [scaleAmount, h1, pyInt, if_pos (by norm_num : (0 : ℚ) ≤ 19 / 10)]
    rw [Int.floor_eq_iff] <;> norm_num
  · rw [specRoundAmount, h1, round_eq]
    have h2 : (19 / 10 + 1 / 2 : ℚ) = 12 / 5 := by norm_num
    rw [h2, Int.floor_eq_iff] <;> norm_num

/-- C6 (amended): the minor-unit amount used in built transactions is
the truncation `int(amountInTokens * 10^tokenDecimals)`, not the
rounding; the two coincide — and no sub-unit precision is lost — exactly
when the amount is expressible within the token's decimal count (then
`amount * 10^decimals` is the integer both produce), and in particular a
listing priced 100.50 at 6 decimals is built with exactly 100500000
minor units. -/
theorem C6_amended :
    ((build_create_listing_transaction "0xid" "PYUSD" (201 / 2) 100 "disputable"
        none none 6)
      = .ok { toAddr := singletonEscrowAddress, value := 0, chainId := singletonChainId
              data := .createListing "0xid" "0x637a1259c6afd7e3adf63993ca7e58bb438ab1b1"
                (scaleAmount (201 / 2) 6) 100 2
              fromAddr := none, gas := 200000 }) ∧
    scaleAmount (201 / 2) 6 = 100500000 ∧
    specRoundAmount (201 / 2) 6 = 100500000 ∧
    (∀ (q : ℚ) (d : Nat) (n : ℤ), q * 10 ^ d = (n : ℚ) →
      scaleAmount q d = n ∧ specRoundAmount q d = n) ∧
    (∀ (q : ℚ) (d : Nat), 0 ≤ q →
      (scaleAmount q d : ℚ) ≤ q * 10 ^ d ∧ q * 10 ^ d < scaleAmount q d + 1) := by
  have main : ∀ (q : ℚ) (d : Nat) (n : ℤ), q * 10 ^ d = (n : ℚ) →
      scaleAmount q d = n ∧ specRoundAmount q d = n := by
    intro q d n h
    have hq : pyInt ((n : ℚ)) = n := by
      unfold pyInt
      by_cases hn : (0 : ℚ) ≤ (n : ℚ)
      · rw [if_pos hn, Int.floor_intCast]
      · rw [if_neg hn]
        rw [show -((n : ℚ)) = ((-n : ℤ) : ℚ) by push_cast; ring, Int.floor_intCast]
        ring
    constructor
    · rw [scaleAmount, h, hq]
    · rw [specRoundAmount, h, round_intCast]
  have sc := main (201 / 2) 6 100500000 (by norm_num)
  refine ⟨rfl, sc.1, sc.2, main, ?_⟩
  intro q d hq
  have hnn : (0 : ℚ) ≤ q * 10 ^ d := by positivity
  have hs : scaleAmount q d = ⌊q * 10 ^ d⌋ := by
    rw [scaleAmount, pyInt, if_pos hnn]
  constructor
  · rw [hs]
    exact Int.floor_le _
  · rw [hs]
    push_cast
    exact Int.lt_floor_add_one _

/-- C6 (witness): the amended theorem applied at the concrete amount
1/2 token with 1 decimal (expressible within the decimal count: both
truncation and rounding give 5), and the floor bounds at amount 1 with
0 decimals. -/
theorem C6_amended_witness :
    (scaleAmount (1 / 2) 1 = 5 ∧ specRoundAmount (1 / 2) 1 = 5) ∧
    ((scaleAmount 1 0 : ℚ) ≤ (1 : ℚ) * 10 ^ (0 : Nat) ∧
      (1 : ℚ) * 10 ^ (0 : Nat) < scaleAmount 1 0 + 1) := by
  constructor
  · exact C6_amended.2.2.2.1 (1 / 2) 1 5 (by norm_num)
  · exact C6_amended.2.2.2.2 1 0 (by norm_num)

/-! ## C7 — unconfigured network/contract/token lookups -/

/-- C7 (counterexample): the claim says an unconfigured lookup fails
immediately with a configuration error.  The registry instead answers
every such lookup with a value: an unknown network name is silently
replaced by the default network's configuration, and the undeployed
mainnet escrow and an unknown token both come back as `None`. -/
theorem C7_counterexample :
    get_network_config (some "mainnet") = arbitrumSepoliaConfig ∧
    get_contract_address "escrow" (some "arbitrum_one") = none ∧
    get_token_address "PYUSD" (some "arbitrum_one") = none := by
  refine ⟨rfl, rfl, rfl⟩

/-- C7 (amended): `get_network_config` substitutes the default
network's configuration for every unknown network name instead of
failing; `get_contract_address` returns `None` for every contract on
the not-yet-deployed `arbitrum_one` network; the failure only happens
one layer up, where `ContractService.get_escrow_contract` raises on the
`None` — while on the default network it resolves to the configured
escrow address. -/
theorem C7_amended :
    (∀ n, NETWORKS n = none → get_network_config (some n) = arbitrumSepoliaConfig) ∧
    (∀ c, get_contract_address c (some "arbitrum_one") = none) ∧
    (∀ s, contractservice_escrow_address "arbitrum_one" ≠ .ok s) ∧
    contractservice_escrow_address DEFAULT_NETWORK = .ok singletonEscrowAddress := by
  refine ⟨?_, ?_, ?_, rfl⟩
  · intro n h
    rw [get_network_config]
    simp only [Option.getD_some]
    rw [h]
    rfl
  · intro c
    rw [get_contract_address]
    simp only [Option.getD_some]
    rw [CONTRACT_ADDRESSES]
    rw [if_neg (by decide : ¬ ("arbitrum_one" : String) = "arbitrum_sepolia")]
  · intro s h
    exact Except.noConfusion h

/-- C7 (witness): the amended theorem at the concrete unknown network
name "mainnet" and the concrete contract kind "escrow". -/
theorem C7_amended_witness :
    get_network_config (some "mainnet") = arbitrumSepoliaConfig ∧
    get_contract_address "escrow" (some "arbitrum_one") = none ∧
    contractservice_escrow_address "arbitrum_one" ≠ .ok singletonEscrowAddress := by
  exact ⟨C7_amended.1 "mainnet" rfl, C7_amended.2.1 "escrow",
    C7_amended.2.2.1 singletonEscrowAddress⟩

/-! ## C9 — delivery builds from a non-seller are always rejected -/

/-- C9 (confirmed): a delivery-transaction build request whose wallet
is not the seller's is rejected with 403 and no state change, by both
the order-keyed and the listing-keyed endpoints, with no hypothesis on
the entity's status — the authorization check precedes and does not
depend on the status check. -/
theorem C9_theorem :
    (∀ db pk w est o, findOrder db pk = some o → o.seller ≠ w →
      deliver_listing_transaction db pk w est = (db, .err 403)) ∧
    (∀ db pk w est l, findListing db pk = some l → l.seller ≠ w →
      deliver_listing_transaction_by_listing db pk w est = (db, .err 403)) := by
  constructor
  · intro db pk w est o ho hw
    rw [deliver_listing_transaction, ho]
    simp [hw]
  · intro db pk w est l hl hw
    rw [deliver_listing_transaction_by_listing, hl]
    simp [hw]

/-- C9 (witness): the concrete database whose single order is in status
`created` — not even `paid` — still answers 403 to a delivery build
from the buyer's (non-seller) wallet, at both endpoints. -/
theorem C9_theorem_witness :
    deliver_listing_transaction (exDB "open" "created") 1 buyerAddr none
      = (exDB "open" "created", .err 403) ∧
    deliver_listing_transaction_by_listing (exDB "open" "created") 1 buyerAddr none
      = (exDB "open" "created", .err 403) := by
  constructor
  · exact C9_theorem.1 (exDB "open" "created") 1 buyerAddr none (exOrder "created")
      (by decide) (by decide)
  · exact C9_theorem.2 (exDB "open" "created") 1 buyerAddr none
      (exListing "open" "disputable") (by decide) (by decide)

/-! ## C10 — purchases always fill with empty extra data -/

/-- C10 (confirmed): every successful purchase build returns the
`fillListing` transaction constructed with the empty byte string as
extra data, whatever the listing's escrow type; the ApiApprovalData
tuple encoder contributes nothing to the purchase path. -/
theorem C10_theorem :
    ∀ db pk w days ct nowStr npk est l tx,
      db.listings.find? (fun x => x.pk == pk && x.status == "open") = some l →
      (purchase_listing_transaction db pk w days ct nowStr npk est).2 = .ok (some tx) →
      tx = build_fill_listing_transaction l.blockchainListingId
          (calculate_deadline_timestamp ct days) (some w) [] est ∧
      tx.data = .fillListing l.blockchainListingId
          (calculate_deadline_timestamp ct days) [] := by
  intro db pk w days ct nowStr npk est l tx hl hres
  rw [purchase_listing_transaction, hl] at hres
  by_cases hu : w ∈ db.users
  · simp only [hu, not_true_eq_false, if_false] at hres
    by_cases hs : w = l.seller
    · rw [if_pos hs] at hres
      exact absurd hres (by simp)
    · rw [if_neg hs] at hres
      simp only [HandlerResult.ok.injEq, Option.some.injEq] at hres
      subst hres
      exact ⟨rfl, rfl⟩
  · simp only [hu, not_false_eq_true, if_true] at hres
    exact absurd hres (by simp)

/-- C10 (witness): a concrete purchase of an `api_approval` listing
still builds `fillListing` with empty extra data. -/
theorem C10_theorem_witness :
    (purchase_listing_transaction
        { users := [buyerAddr, sellerAddr]
          listings := [exListing "open" "api_approval"]
          orders := [], disputes := [] }
        1 buyerAddr 7 1000 "2025-01-01 00:00:00" 1 none).2
      = .ok (some (build_fill_listing_transaction
          (exListing "open" "api_approval").blockchainListingId
          (calculate_deadline_timestamp 1000 7) (some buyerAddr) [] none)) ∧
    (build_fill_listing_transaction
        (exListing "open" "api_approval").blockchainListingId
        (calculate_deadline_timestamp 1000 7) (some buyerAddr) [] none).data
      = .fillListing (exListing "open" "api_approval").blockchainListingId
          (calculate_deadline_timestamp 1000 7) [] := by
  constructor
  · rfl
  · exact (C10_theorem
      { users := [buyerAddr, sellerAddr]
        listings := [exListing "open" "api_approval"]
        orders := [], disputes := [] }
      1 buyerAddr 7 1000 "2025-01-01 00:00:00" 1 none
      (exListing "open" "api_approval")
      (build_fill_listing_transaction
        (exListing "open" "api_approval").blockchainListingId
        (calculate_deadline_timestamp 1000 7) (some buyerAddr) [] none)
      (by decide) rfl).2

/-! ## C1 — receipt verification before forward transitions -/

theorem escrow_addr_eq : get_contract_address "escrow" none = some singletonEscrowAddress := rfl

theorem findOrder_update_status {db : DB} {pk : Nat} {o : OrderRec}
    (h : findOrder db pk = some o) (st : String) :
    findOrder (updateOrder db { o with status := st }) pk
      = some { o with status := st } := by
  have h2 : ({ o with status := st } : OrderRec).pk = pk := by
    show o.pk = pk
    exact findOrder_pk h
  exact findOrder_update h h2

theorem findOrder_setDisputes (db : DB) (ds : List DisputeRec) (pk : Nat) :
    findOrder { db with disputes := ds } pk = findOrder db pk := rfl

/-- C1 (counterexample): the claim requires every confirm endpoint to
reject a submission whose receipt targets an address other than the
escrow contract, with no state change.  `ConfirmAcceptanceView` never
consults any receipt: with the only receipt for the submitted hash
being a successful transaction aimed at a different contract, the
acceptance confirmation still succeeds and moves the order from
`delivered` to `completed`. -/
theorem C1_counterexample :
    wrongTargetChain exTxHash = some { status := 1, toAddr := some otherContractAddr } ∧
    asciiLower otherContractAddr ≠ asciiLower singletonEscrowAddress ∧
    (confirm_acceptance (exDB "delivered" "delivered") 1 exTxHash).2 = .ok none ∧
    findOrder (confirm_acceptance (exDB "delivered" "delivered") 1 exTxHash).1 1
      = some { exOrder "delivered" with status := "completed" } := by
  refine ⟨rfl, by decide, rfl, by decide⟩

/-- C1 (amended): only `ConfirmPurchaseView` and
`ConfirmDeliveryTransactionByListingView` perform the receipt
verification the claim describes — they reject without touching the
database unless the receipt exists, has success status, and targets the
configured escrow address.  The order-keyed
`ConfirmDeliveryTransactionView`, `ConfirmAcceptanceView` and
`ConfirmDisputeView` transition unconditionally, consulting no
receipt. -/
theorem C1_amended :
    (∀ db chain pk h c, (confirm_purchase db chain pk h).2 = .err c →
      (confirm_purchase db chain pk h).1 = db) ∧
    (∀ db chain pk h, (confirm_purchase db chain pk h).2 = .ok none →
      ∃ r t, chain h = some r ∧ r.status = 1 ∧ r.toAddr = some t ∧
        asciiLower t = asciiLower singletonEscrowAddress) ∧
    (∀ db chain pk h c, (confirm_delivery_transaction_by_listing db chain pk h).2 = .err c →
      (confirm_delivery_transaction_by_listing db chain pk h).1 = db) ∧
    (∀ db chain pk h, (confirm_delivery_transaction_by_listing db chain pk h).2 = .ok none →
      ∃ r t, chain h = some r ∧ r.status = 1 ∧ r.toAddr = some t ∧
        asciiLower t = asciiLower singletonEscrowAddress) ∧
    (∀ db pk h o, findOrder db pk = some o →
      (confirm_delivery_transaction db pk h).2 = .ok none ∧
      findOrder (confirm_delivery_transaction db pk h).1 pk
        = some { o with status := "delivered" }) ∧
    (∀ db pk h o, findOrder db pk = some o →
      (confirm_acceptance db pk h).2 = .ok none ∧
      findOrder (confirm_acceptance db pk h).1 pk
        = some { o with status := "completed" }) ∧
    (∀ db pk h w o, findOrder db pk = some o →
      findOrder (confirm_dispute db pk h w).1 pk
        = some { o with status := "disputed" }) := by
  refine ⟨?_, ?_, ?_, ?_, ?_, ?_, ?_⟩
  · intro db chain pk h c hres
    rw [confirm_purchase] at hres ⊢
    cases hfo : findOrder db pk
    · rfl
    · rename_i o
      rw [hfo] at hres
      dsimp only at hres ⊢
      cases hr : chain h
      · rfl
      · rename_i r
        rw [hr] at hres
        dsimp only at hres ⊢
        by_cases hst : r.status ≠ 1
        · rw [if_pos hst]
        · rw [if_neg hst] at hres ⊢
          rw [escrow_addr_eq] at hres ⊢
          cases hta : r.toAddr
          · rfl
          · rename_i t
            rw [hta] at hres
            dsimp only at hres ⊢
            by_cases hlt : asciiLower t ≠ asciiLower singletonEscrowAddress
            · rw [if_pos hlt]
            · rw [if_neg hlt] at hres
              exact absurd hres (by simp)
  · intro db chain pk h hres
    rw [confirm_purchase] at hres
    cases hfo : findOrder db pk
    · rw [hfo] at hres
      exact absurd hres (by simp)
    · rename_i o
      rw [hfo] at hres
      dsimp only at hres
      cases hr : chain h
      · rw [hr] at hres
        exact absurd hres (by simp)
      · rename_i r
        rw [hr] at hres
        dsimp only at hres
        by_cases hst : r.status ≠ 1
        · rw [if_pos hst] at hres
          exact absurd hres (by simp)
        · rw [if_neg hst] at hres
          rw [escrow_addr_eq] at hres
          cases hta : r.toAddr
          · rw [hta] at hres
            exact absurd hres (by simp)
          · rename_i t
            rw [hta] at hres
            dsimp only at hres
            by_cases hlt : asciiLower t ≠ asciiLower singletonEscrowAddress
            · rw [if_pos hlt] at hres
              exact absurd hres (by simp)
            · exact ⟨r, t, rfl, not_not.mp hst, hta, not_not.mp hlt⟩
  · intro db chain pk h c hres
    rw [confirm_delivery_transaction_by_listing] at hres ⊢
    cases hfl : findListing db pk
    · rfl
    · rename_i l
      rw [hfl] at hres
      dsimp only at hres ⊢
      cases hr : chain h
      · rfl
      · rename_i r
        rw [hr] at hres
        dsimp only at hres ⊢
        by_cases hst : r.status ≠ 1
        · rw [if_pos hst]
        · rw [if_neg hst] at hres ⊢
          rw [escrow_addr_eq] at hres ⊢
          cases hta : r.toAddr
          · rfl
          · rename_i t
            rw [hta] at hres
            dsimp only at hres ⊢
            by_cases hlt : asciiLower t ≠ asciiLower singletonEscrowAddress
            · rw [if_pos hlt]
            · rw [if_neg hlt] at hres
              exact absurd hres (by simp)
  · intro db chain pk h hres
    rw [confirm_delivery_transaction_by_listing] at hres
    cases hfl : findListing db pk
    · rw [hfl] at hres
      exact absurd hres (by simp)
    · rename_i l
      rw [hfl] at hres
      dsimp only at hres
      cases hr : chain h
      · rw [hr] at hres
        exact absurd hres (by simp)
      · rename_i r
        rw [hr] at hres
        dsimp only at hres
        by_cases hst : r.status ≠ 1
        · rw [if_pos hst] at hres
          exact absurd hres (by simp)
        · rw [if_neg hst] at hres
          rw [escrow_addr_eq] at hres
          cases hta : r.toAddr
          · rw [hta] at hres
            exact absurd hres (by simp)
          · rename_i t
            rw [hta] at hres
            dsimp only at hres
            by_cases hlt : asciiLower t ≠ asciiLower singletonEscrowAddress
            · rw [if_pos hlt] at hres
              exact absurd hres (by simp)
            · exact ⟨r, t, rfl, not_not.mp hst, hta, not_not.mp hlt⟩
  · intro db pk h o hfo
    rw [confirm_delivery_transaction, hfo]
    refine ⟨rfl, ?_⟩
    have hupd := findOrder_update_status hfo "delivered"
    dsimp only
    cases hfl : findListing (updateOrder db { o with status := "delivered" }) o.listingPk
    · exact hupd
    · rw [findOrder_updateListing]
      exact hupd
  · intro db pk h o hfo
    rw [confirm_acceptance, hfo]
    exact ⟨rfl, findOrder_update_status hfo "completed"⟩
  · intro db pk h w o hfo
    rw [confirm_dispute, hfo]
    have hupd := findOrder_update_status hfo "disputed"
    unfold dispute_create
    dsimp only
    by_cases hany : (updateOrder db { o with status := "disputed" }).disputes.any
        (fun x => x.orderPk == o.pk) = true
    · rw [if_pos hany]
      exact hupd
    · rw [if_neg hany]
      rw [findOrder_setDisputes]
      exact hupd

/-- C1 (witness): the amended theorem at a concrete database: a failed
purchase confirmation (receipt aimed at another contract) leaves the
database unchanged, and a concrete delivery confirmation against an
order in `paid` succeeds with the order set to `delivered` although no
receipt was consulted. -/
theorem C1_amended_witness :
    (confirm_purchase (exDB "filled" "created") wrongTargetChain 1 exTxHash).1
      = exDB "filled" "created" ∧
    (confirm_delivery_transaction (exDB "filled" "paid") 1 exTxHash).2 = .ok none ∧
    findOrder (confirm_delivery_transaction (exDB "filled" "paid") 1 exTxHash).1 1
      = some { exOrder "paid" with status := "delivered" } := by
  refine ⟨?_, ?_, ?_⟩
  · exact C1_amended.1 (exDB "filled" "created") wrongTargetChain 1 exTxHash 400 (by decide)
  · exact (C1_amended.2.2.2.2.1 (exDB "filled" "paid") 1 exTxHash (exOrder "paid")
      (by decide)).1
  · exact (C1_amended.2.2.2.2.1 (exDB "filled" "paid") 1 exTxHash (exOrder "paid")
      (by decide)).2

/-! ## C2 — status preconditions on state transitions -/

/-- C2 (counterexample): the claim requires every transition operation
to reject when the persisted status does not satisfy the action's
precondition.  `ConfirmDeliveryTransactionView` checks no status at
all: an order still in `created` (never paid) is moved straight to
`delivered`. -/
theorem C2_counterexample :
    (exOrder "created").status ≠ "paid" ∧
    (confirm_delivery_transaction (exDB "open" "created") 1 exTxHash).2 = .ok none ∧
    findOrder (confirm_delivery_transaction (exDB "open" "created") 1 exTxHash).1 1
      = some { exOrder "created" with status := "delivered" } := by
  refine ⟨by decide, rfl, by decide⟩

/-- C2 (amended): the transaction-build operations (deliver, accept,
dispute, both deliver variants) do reject a status outside the action's
precondition with 400 and no database change; the confirm operations do
not — `ConfirmDeliveryTransactionView` (like `ConfirmAcceptanceView`
and `ConfirmDisputeView`, see C1) applies its transition whatever the
current status. -/
theorem C2_amended :
    (∀ db pk w est o, findOrder db pk = some o → o.seller = w → o.status ≠ "paid" →
      deliver_listing_transaction db pk w est = (db, .err 400)) ∧
    (∀ db pk w est o, findOrder db pk = some o → o.buyer = w → o.status ≠ "delivered" →
      accept_delivery_transaction db pk w est = (db, .err 400)) ∧
    (∀ db pk w fr est o, findOrder db pk = some o → (w = o.buyer ∨ w = o.seller) →
      o.status ≠ "delivered" → o.status ≠ "paid" →
      dispute_listing_transaction db pk w fr est = (db, .err 400)) ∧
    (∀ db pk w est l, findListing db pk = some l → l.seller = w → l.status ≠ "filled" →
      deliver_listing_transaction_by_listing db pk w est = (db, .err 400)) ∧
    (∀ db pk h o, findOrder db pk = some o → o.status ≠ "paid" →
      (confirm_delivery_transaction db pk h).2 = .ok none ∧
      findOrder (confirm_delivery_transaction db pk h).1 pk
        = some { o with status := "delivered" }) := by
  refine ⟨?_, ?_, ?_, ?_, ?_⟩
  · intro db pk w est o hfo hsell hst
    rw [deliver_listing_transaction, hfo]
    dsimp only
    rw [if_neg (by simp [hsell]), if_pos hst]
  · intro db pk w est o hfo hbuy hst
    rw [accept_delivery_transaction, hfo]
    dsimp only
    rw [if_neg (by simp [hbuy]), if_pos hst]
  · intro db pk w fr est o hfo hparty hd hp
    rw [dispute_listing_transaction, hfo]
    dsimp only
    have hnot : ¬ (w ≠ o.buyer ∧ w ≠ o.seller) := by
      rcases hparty with h | h <;> simp [h]
    rw [if_neg hnot, if_pos ⟨hd, hp⟩]
  · intro db pk w est l hfl hsell hst
    rw [deliver_listing_transaction_by_listing, hfl]
    dsimp only
    rw [if_neg (by simp [hsell]), if_pos hst]
  · intro db pk h o hfo _hst
    rw [confirm_delivery_transaction, hfo]
    refine ⟨rfl, ?_⟩
    have hupd := findOrder_update_status hfo "delivered"
    dsimp only
    cases hfl : findListing (updateOrder db { o with status := "delivered" }) o.listingPk
    · exact hupd
    · rw [findOrder_updateListing]
      exact hupd

/-- C2 (witness): the amended theorem at the concrete database — every
build endpoint answers 400 unchanged for a mismatched status, while the
delivery confirmation still succeeds from `created`. -/
theorem C2_amended_witness :
    deliver_listing_transaction (exDB "open" "created") 1 sellerAddr none
      = (exDB "open" "created", .err 400) ∧
    accept_delivery_transaction (exDB "open" "paid") 1 buyerAddr none
      = (exDB "open" "paid", .err 400) ∧
    dispute_listing_transaction (exDB "open" "created") 1 buyerAddr none none
      = (exDB "open" "created", .err 400) ∧
    deliver_listing_transaction_by_listing (exDB "open" "created") 1 sellerAddr none
      = (exDB "open" "created", .err 400) ∧
    (confirm_delivery_transaction (exDB "open" "created") 1 exTxHash).2 = .ok none := by
  refine ⟨?_, ?_, ?_, ?_, ?_⟩
  · exact C2_amended.1 (exDB "open" "created") 1 sellerAddr none (exOrder "created")
      (by decide) (by decide) (by decide)
  · exact C2_amended.2.1 (exDB "open" "paid") 1 buyerAddr none (exOrder "paid")
      (by decide) (by decide) (by decide)
  · exact C2_amended.2.2.1 (exDB "open" "created") 1 buyerAddr none none (exOrder "created")
      (by decide) (Or.inl (by decide)) (by decide) (by decide)
  · exact C2_amended.2.2.2.1 (exDB "open" "created") 1 sellerAddr none
      (exListing "open" "disputable") (by decide) (by decide) (by decide)
  · exact (C2_amended.2.2.2.2 (exDB "open" "created") 1 exTxHash (exOrder "created")
      (by decide) (by decide)).1

/-! ## C3 — exactly one Dispute per disputed order -/

theorem disputeCount_updateOrder (db : DB) (o : OrderRec) (n : Nat) :
    disputeCount (updateOrder db o) n = disputeCount db n := rfl

theorem any_eq_false_of_disputeCount_zero {db : DB} {n : Nat}
    (h : disputeCount db n = 0) :
    db.disputes.any (fun x => x.orderPk == n) = false := by
  rw [disputeCount, List.length_eq_zero, List.filter_eq_nil_iff] at h
  rw [List.any_eq_false]
  exact h

theorem disputeCount_pos_any {db : DB} {n m : Nat}
    (h : disputeCount db n = m + 1) :
    db.disputes.any (fun x => x.orderPk == n) = true := by
  rw [List.any_eq_true]
  have hpos : db.disputes.filter (fun x => x.orderPk == n) ≠ [] := by
    intro hnil
    rw [disputeCount, hnil] at h
    simp at h
  obtain ⟨x, hx⟩ := List.exists_mem_of_ne_nil _ hpos
  have hm := List.mem_filter.mp hx
  exact ⟨x, hm.1, hm.2⟩

/-- C3 (confirmed; the `Dispute` model itself is spec-modelled, see
`dispute_create`): a dispute confirmation on an order with no existing
`Dispute` row creates exactly one and succeeds, and on an order that
already has its row the create fails (surfacing as a 500) and the
count stays as it was — so however many times the confirmation is
invoked, a disputed order never carries more than one `Dispute`
record.  The order ends in `disputed` either way. -/
theorem C3_theorem :
    ∀ db pk h w o, findOrder db pk = some o →
      ((disputeCount db o.pk = 0 →
        disputeCount (confirm_dispute db pk h w).1 o.pk = 1 ∧
        (confirm_dispute db pk h w).2 = .ok none) ∧
       (∀ n, disputeCount db o.pk = n + 1 →
        disputeCount (confirm_dispute db pk h w).1 o.pk = n + 1 ∧
        (confirm_dispute db pk h w).2 = .err 500) ∧
       findOrder (confirm_dispute db pk h w).1 pk
        = some { o with status := "disputed" }) := by
  intro db pk h w o hfo
  rw [confirm_dispute, hfo]
  unfold dispute_create
  dsimp only
  have hdisp : (updateOrder db { o with status := "disputed" }).disputes = db.disputes := rfl
  by_cases hany : (updateOrder db { o with status := "disputed" }).disputes.any
      (fun x => x.orderPk == o.pk) = true
  · rw [if_pos hany]
    refine ⟨?_, ?_, findOrder_update_status hfo "disputed"⟩
    · intro h0
      rw [hdisp] at hany
      rw [any_eq_false_of_disputeCount_zero h0] at hany
      exact absurd hany (by simp)
    · intro n hn
      exact ⟨hn, rfl⟩
  · rw [if_neg hany]
    refine ⟨?_, ?_, ?_⟩
    · intro h0
      refine ⟨?_, rfl⟩
      have h0' : (db.disputes.filter (fun d => d.orderPk == o.pk)).length = 0 := h0
      simp [disputeCount, hdisp, List.filter_append, h0']
    · intro n hn
      rw [hdisp] at hany
      rw [disputeCount_pos_any hn] at hany
      exact absurd hany (by simp)
    · rw [findOrder_setDisputes]
      exact findOrder_update_status hfo "disputed"

/-- C3 (witness): on the concrete delivered order with no existing
dispute the confirmation creates exactly one `Dispute`; running the
confirmation a second time on the resulting state leaves the count at
one (with a 500). -/
theorem C3_theorem_witness :
    (disputeCount
        (confirm_dispute (exDB "delivered" "delivered") 1 exTxHash (some buyerAddr)).1 1 = 1 ∧
      (confirm_dispute (exDB "delivered" "delivered") 1 exTxHash (some buyerAddr)).2
        = .ok none) ∧
    (disputeCount
        (confirm_dispute
          (confirm_dispute (exDB "delivered" "delivered") 1 exTxHash (some buyerAddr)).1
          1 exTxHash (some buyerAddr)).1 1 = 0 + 1 ∧
      (confirm_dispute
          (confirm_dispute (exDB "delivered" "delivered") 1 exTxHash (some buyerAddr)).1
          1 exTxHash (some buyerAddr)).2 = .err 500) := by
  constructor
  · exact (C3_theorem (exDB "delivered" "delivered") 1 exTxHash (some buyerAddr)
      (exOrder "delivered") (by decide)).1 (by decide)
  · exact (C3_theorem
      (confirm_dispute (exDB "delivered" "delivered") 1 exTxHash (some buyerAddr)).1
      1 exTxHash (some buyerAddr) { exOrder "delivered" with status := "disputed" }
      (by decide)).2.1 0 (by decide)

/-! ## C4 — dispute requests from third-party wallets -/

/-- C4 (counterexample): the claim says a dispute request from a wallet
that is neither the buyer nor the seller is rejected with no Dispute
record created.  `ConfirmDisputeView` does not validate the wallet: a
confirmation naming a stranger as initiator succeeds and creates a
Dispute record (silently attributed to the buyer). -/
theorem C4_counterexample :
    strangerAddr ≠ buyerAddr ∧ strangerAddr ≠ sellerAddr ∧
    (confirm_dispute (exDB "delivered" "delivered") 1 exTxHash (some strangerAddr)).2
      = .ok none ∧
    (confirm_dispute (exDB "delivered" "delivered") 1 exTxHash (some strangerAddr)).1.disputes
      = [⟨1, buyerAddr, "Blockchain dispute initiated", "open"⟩] := by
  refine ⟨by decide, by decide, rfl, by decide⟩

/-- C4 (amended): the dispute-transaction build endpoint does reject a
wallet that is neither party with 403 and no database change; the
dispute confirmation endpoint performs no such check — a wallet
matching neither party is silently replaced by the buyer and a Dispute
record is still created (whenever none exists yet). -/
theorem C4_amended :
    (∀ db pk w fr est o, findOrder db pk = some o → w ≠ o.buyer → w ≠ o.seller →
      dispute_listing_transaction db pk w fr est = (db, .err 403)) ∧
    (∀ db pk h w o, findOrder db pk = some o →
      w ≠ some o.buyer → w ≠ some o.seller → disputeCount db o.pk = 0 →
      (confirm_dispute db pk h w).2 = .ok none ∧
      (confirm_dispute db pk h w).1.disputes
        = db.disputes ++ [⟨o.pk, o.buyer, "Blockchain dispute initiated", "open"⟩]) := by
  constructor
  · intro db pk w fr est o hfo hb hs
    rw [dispute_listing_transaction, hfo]
    dsimp only
    rw [if_pos ⟨hb, hs⟩]
  · intro db pk h w o hfo hb hs h0
    rw [confirm_dispute, hfo]
    unfold dispute_create
    dsimp only
    rw [if_neg hb, if_neg hs]
    have hdisp : (updateOrder db { o with status := "disputed" }).disputes = db.disputes := rfl
    have hany : (updateOrder db { o with status := "disputed" }).disputes.any
        (fun x => x.orderPk == o.pk) = false := by
      rw [hdisp]
      exact any_eq_false_of_disputeCount_zero h0
    rw [if_neg (by rw [hany]; simp)]
    exact ⟨rfl, rfl⟩

/-- C4 (witness): the amended theorem at the concrete database: the
build endpoint answers 403 unchanged to the stranger, while the confirm
endpoint still creates the Dispute attributed to the buyer. -/
theorem C4_amended_witness :
    dispute_listing_transaction (exDB "delivered" "delivered") 1 strangerAddr none none
      = (exDB "delivered" "delivered", .err 403) ∧
    (confirm_dispute (exDB "delivered" "delivered") 1 exTxHash (some strangerAddr)).1.disputes
      = [⟨1, buyerAddr, "Blockchain dispute initiated", "open"⟩] := by
  constructor
  · exact C4_amended.1 (exDB "delivered" "delivered") 1 strangerAddr none none
      (exOrder "delivered") (by decide) (by decide) (by decide)
  · exact (C4_amended.2 (exDB "delivered" "delivered") 1 exTxHash (some strangerAddr)
      (exOrder "delivered") (by decide) (by decide) (by decide) (by decide)).2

/-! ## C8 — identifier generation -/

theorem hexDigitChar_isLowerHex {m : Nat} (h : m < 16) :
    isLowerHexDigit (hexDigitChar m) := by
  interval_cases m <;> decide

theorem wordHex8_mem_hex (w : Nat) : ∀ c ∈ wordHex8 w, isLowerHexDigit c := by
  intro c hc
  rw [wordHex8] at hc
  simp only [List.mem_map, List.mem_range] at hc
  obtain ⟨i, _, rfl⟩ := hc
  exact hexDigitChar_isLowerHex (Nat.mod_lt _ (by norm_num))

theorem wordHex8_length (w : Nat) : (wordHex8 w).length = 8 := by
  simp [wordHex8]

theorem sha256hexChars_length (msg : List Nat) : (sha256hexChars msg).length = 64 := by
  simp [sha256hexChars, List.length_append, wordHex8_length]

theorem sha256hexChars_hex (msg : List Nat) :
    ∀ c ∈ sha256hexChars msg, isLowerHexDigit c := by
  intro c hc
  rw [sha256hexChars] at hc
  simp only [List.mem_append] at hc
  rcases hc with ((((((h | h) | h) | h) | h) | h) | h) | h <;>
    exact wordHex8_mem_hex _ c h

theorem hexId_length (msg : List Nat) : ("0x" ++ sha256hexStr msg).length = 66 := by
  rw [String.length_append, sha256hexStr]
  have h2 : (String.mk (sha256hexChars msg)).length = 64 := by
    show (sha256hexChars msg).length = 64
    exact sha256hexChars_length msg
  rw [h2]
  rfl

theorem hexId_data (msg : List Nat) :
    ("0x" ++ sha256hexStr msg).data = '0' :: 'x' :: sha256hexChars msg := by
  rw [String.data_append, sha256hexStr]
  rfl

/-- C8 (counterexample): the claim says the same generation function
(with different part sets) produces both listing ids and order ids.
The order id is computed by a separate inline implementation in the
purchase view that underscore-joins its parts: on the same parts and
salt the two computations disagree. -/
theorem C8_counterexample :
    generate_listing_id "a" "b" 1 ≠ purchase_order_id "a" "b" "1" := by
  set_option maxRecDepth 10000 in decide

/-- C8 (amended): identifier generation is deterministic and returns a
0x-prefixed 32-byte (64 lowercase-hex-character) SHA-256 digest of the
concatenation of the parts and the salt, for the listing ids and for
the order ids alike — but the two are produced by two separate
implementations of that recipe (the purchase view's inline order-id
code underscore-joins its parts and salts with a datetime string
instead of reusing `generate_listing_id`; see the counterexample). -/
theorem C8_amended :
    ∀ (seller title : String) (ts : Nat) (bid buyer nowStr : String),
      (∀ s2 t2 ts2, seller = s2 → title = t2 → ts = ts2 →
        generate_listing_id seller title ts = generate_listing_id s2 t2 ts2) ∧
      (generate_listing_id seller title ts).length = 66 ∧
      (generate_listing_id seller title ts).data.take 2 = ['0', 'x'] ∧
      (∀ c ∈ (generate_listing_id seller title ts).data.drop 2, isLowerHexDigit c) ∧
      (purchase_order_id bid buyer nowStr).length = 66 ∧
      (purchase_order_id bid buyer nowStr).data.take 2 = ['0', 'x'] ∧
      (∀ c ∈ (purchase_order_id bid buyer nowStr).data.drop 2, isLowerHexDigit c) := by
  intro seller title ts bid buyer nowStr
  refine ⟨?_, ?_, ?_, ?_, ?_, ?_, ?_⟩
  · intro s2 t2 ts2 h1 h2 h3
    rw [h1, h2, h3]
  · exact hexId_length _
  · rw [generate_listing_id, hexId_data]
    rfl
  · rw [generate_listing_id, hexId_data]
    intro c hc
    exact sha256hexChars_hex _ c (by simpa using hc)
  · exact hexId_length _
  · rw [purchase_order_id, hexId_data]
    rfl
  · rw [purchase_order_id, hexId_data]
    intro c hc
    exact sha256hexChars_hex _ c (by simpa using hc)

/-- C8 (witness): the amended theorem at the concrete parts
("a", "b") with salt 1 (and the concrete order-id parts "a", "b",
"1"): determinism, the 66-character 0x-prefixed format, and the
lowercase-hex character at the first digest position. -/
theorem C8_amended_witness :
    generate_listing_id "a" "b" 1 = generate_listing_id "a" "b" 1 ∧
    (generate_listing_id "a" "b" 1).length = 66 ∧
    (generate_listing_id "a" "b" 1).data.take 2 = ['0', 'x'] ∧
    (purchase_order_id "a" "b" "1").length = 66 ∧
    isLowerHexDigit ((generate_listing_id "a" "b" 1).data.getD 2 ' ') := by
  refine ⟨(C8_amended "a" "b" 1 "a" "b" "1").1 "a" "b" 1 rfl rfl rfl,
    (C8_amended "a" "b" 1 "a" "b" "1").2.1,
    (C8_amended "a" "b" 1 "a" "b" "1").2.2.1,
    (C8_amended "a" "b" 1 "a" "b" "1").2.2.2.2.1,
    (C8_amended "a" "b" 1 "a" "b" "1").2.2.2.1 _ ?_⟩
  set_option maxRecDepth 10000 in decide
